import Mathlib

/-!
# Kritis: attestation validation and note references

A shallow embedding of

* `pkg/kritis/metadata/metadata.go` (data model, `ParseNoteReference`),
* `pkg/kritis/review/validating_transport.go` (`ValidatePublicKey`,
  `validatePublicKeyType`, `validatePublicKeyId`, `GetValidatedAttestations`), and
* the cache of `pkg/kritis/metadata/containeranalysis`, as far as its tests
  (`cache_test.go`) and its contract describe it.

Conventions.

* A Go `error` is an `Option Error`; `none` is the `nil` error.
* A Go slice that may be `nil` is an `Option (List α)`; `none` is the `nil`
  slice and `some []` is the empty, non-nil slice.
* A Go `map[string]V` is an association list with at most one entry per key.
* The collaborators the code calls but does not define (`secrets`, `net/url`,
  `encoding/base64`, `container`, the metadata client) are parameters.
* Calls to the stateful collaborators are recorded, in order, in a list of
  `Event`s. `glog` output is not modelled.
-/

set_option linter.dupNamespace false

namespace Kritis

/-! ## Data model: `v1beta1` -/

/-- Modelled from the spec: the declaration of `v1beta1.PkixPublicKey` is not among the
sources. It is a comparable record holding the PKIX key material; the code only compares
it with its zero value. -/
structure PkixPublicKey where
  PublicKeyPem : String
  deriving DecidableEq, Repr

/-- The zero value `v1beta1.PkixPublicKey{}`. -/
def PkixPublicKey.zero : PkixPublicKey := ⟨""⟩

/-- Modelled from the spec: the key type constant for PGP keys (`v1beta1.PgpKeyType`);
key types are strings (they are formatted with `%s`). -/
def PgpKeyType : String := "PGP"

/-- Modelled from the spec: the key type constant for PKIX keys (`v1beta1.PkixKeyType`). -/
def PkixKeyType : String := "PKIX"

/-- The type `v1beta1.PublicKey`, with the four fields the validator reads. -/
structure PublicKey where
  KeyType : String
  KeyId : String
  PgpPublicKey : String
  PkixPublicKey : PkixPublicKey
  deriving DecidableEq, Repr

/-- The zero value `v1beta1.PublicKey{}`, which a Go map returns for a missing key. -/
def PublicKey.zero : PublicKey := ⟨"", "", "", PkixPublicKey.zero⟩

/-- The type `v1beta1.AttestationAuthoritySpec`. -/
structure AttestationAuthoritySpec where
  NoteReference : String
  PublicKeys : List PublicKey
  deriving DecidableEq, Repr

/-- The type `v1beta1.AttestationAuthority`; `Name` is the promoted `ObjectMeta.Name`. -/
structure AttestationAuthority where
  Name : String
  Spec : AttestationAuthoritySpec
  deriving DecidableEq, Repr

/-! ## Data model: `metadata` -/

/-- The type `metadata.AttestationType`, an `int` with three named values. -/
abbrev AttestationType := Int

def UnknownAttestationType : AttestationType := 0
def PgpAttestationType : AttestationType := 1
def GenericAttestationType : AttestationType := 2

/-- The type `metadata.Vulnerability`. -/
structure Vulnerability where
  Severity : String
  HasFixAvailable : Bool
  CVE : String
  deriving DecidableEq, Repr

/-- The type `metadata.Signature`: signature bytes and a key lookup hint. -/
structure Signature where
  Signature : List UInt8
  PublicKeyId : String
  deriving DecidableEq, Repr

/-- The type `metadata.PGPAttestation`. -/
structure PGPAttestation where
  Signature : Signature
  OccID : String
  deriving DecidableEq, Repr

/-- The type `metadata.GenericAttestation`. -/
structure GenericAttestation where
  SerializedPayload : List UInt8
  Signatures : List Signature
  deriving DecidableEq, Repr

/-- Modelled from the spec: the signature-type discriminator of a raw attestation
(`metadata.SignatureType`), whose declaration is not among the sources. `Pgp` is the only
value the validator supports. -/
inductive SignatureType where
  | UnknownSignatureType
  | PgpSignatureType
  | GenericSignatureType
  deriving DecidableEq, Repr

/-- Modelled from the spec: the signature record the validator reads from a raw
attestation, `rawAtt.Signature`: its declaration is not among the sources. The signature
is base64 text (it is handed to `base64.StdEncoding.DecodeString`). -/
structure RawSignature where
  PublicKeyId : String
  Signature : String
  deriving DecidableEq, Repr

/-- The type `metadata.RawAttestation`: the three fields declared in `metadata.go`, and
the two fields the validator reads (`SignatureType`, `Signature`). -/
structure RawAttestation where
  AttestationType : AttestationType
  PGPAttestation : PGPAttestation
  GenericAttestation : GenericAttestation
  SignatureType : SignatureType
  Signature : RawSignature
  deriving DecidableEq, Repr

/-- Modelled from the spec: the output type `attestation.ValidatedAttestation`, whose
declaration is not among the sources: attestor name and image reference. -/
structure ValidatedAttestation where
  AttestorName : String
  Image : String
  deriving DecidableEq, Repr

/-! ## Errors -/

/-- Error values. An error built by `fmt.Errorf` is the constructor for its format string,
applied to the formatted arguments; `external` is an error made by a collaborator. -/
inductive Error where
  /-- An error made by a collaborator, with its message. -/
  | external (msg : String)
  /-- Format `"invalid Note Reference, should be in format projects/<project_id>/notes/<note_id>"` -/
  | invalidNoteReference
  /-- Format `"Invalid PGP key: %v. PkixPublicKey field should not be set"` -/
  | pgpKeyPkixSet (pubKey : PublicKey)
  /-- Format `"Invalid PGP key: %v. PgpPublicKey field should be set"` -/
  | pgpKeyPgpUnset (pubKey : PublicKey)
  /-- Format `"Invalid PKIX key: %v. PgpPublicKey field should not be set"` -/
  | pkixKeyPgpSet (pubKey : PublicKey)
  /-- Format `"Invalid PKIX key: %v. PkixPublicKey field should be set"` -/
  | pkixKeyPkixUnset (pubKey : PublicKey)
  /-- Format `"Unsupported key type %s for key %v"` -/
  | unsupportedKeyType (keyType : String) (pubKey : PublicKey)
  /-- Format `"Error parsing PGP key for %q: %v"` -/
  | pgpParse (attestorName : String) (err : String)
  /-- Format `"PGP key with id %s was skipped. KeyId should be the RFC4880 V4 fingerprint of the
  public key"` -/
  | pgpKeyIdMismatch (keyId : String)
  /-- Format `"PKIX key with id %s was skipped. KeyId should be a valid RFC3986 URI"` -/
  | pkixKeyIdNotUri (keyId : String)
  /-- Format `"Unable to find any valid key for %q"` -/
  | noValidKey (attestorName : String)
  /-- Format `"Signature type %s is not supported for Attestation %v"` -/
  | unsupportedSignatureType (signatureType : SignatureType) (rawAtt : RawAttestation)
  deriving DecidableEq, Repr

/-! ## `ParseNoteReference` -/

/-- The call `strings.Split(s, "/")`: the substrings of `s` between the occurrences of
`/`; always at least one. -/
def splitSlash (s : String) : List String :=
  (s.toList.splitOn '/').map String.mk

/-- The Go index expression `parts[i]` on a list of strings known to be long enough. -/
def part (parts : List String) (i : Nat) : String :=
  parts.getD i ""

/-- ParseNoteReference extracts the project ID and the note ID from the NoteReference. -/
def ParseNoteReference (ref : String) : String × String × Option Error :=
  let parts := splitSlash ref
  if parts.length ≠ 4 ∨ part parts 0 ≠ "projects" ∨ part parts 2 ≠ "notes" then
    ("", "", some Error.invalidNoteReference)
  else
    (part parts 1, part parts 3, none)

/-! ## Collaborators -/

/-- The signature context `container.AtomicContainerSig` built for an image: its method
`VerifySignature(key, decodedSignatureText)`. -/
structure Host where
  VerifySignature : PublicKey → String → Option Error

/-- The interface `metadata.ReadOnlyClient` (`Close` has no result and is left out). A
result is the pair the Go method returns. -/
structure ReadOnlyClient where
  Vulnerabilities : String → Option (List Vulnerability) × Option Error
  Attestations : String → AttestationAuthority → Option (List RawAttestation) × Option Error

/-- The library functions the validator calls.

* `KeyAndFingerprint` is `secrets.KeyAndFingerprint`, reduced to the two results the code
  reads: the fingerprint, or the message of the error.
* `urlParse` is `url.Parse`, reduced to its error result.
* `DecodeString` is `base64.StdEncoding.DecodeString`; the decoded bytes are the string
  the code converts them to.
* `NewAtomicContainerSig` is `container.NewAtomicContainerSig(image, map[string]string{})`. -/
structure Env where
  KeyAndFingerprint : String → Except String String
  urlParse : String → Option Error
  DecodeString : String → Except Error String
  NewAtomicContainerSig : String → Except Error Host

/-- The type `review.AttestorValidatingTransport`. -/
structure AttestorValidatingTransport where
  Client : ReadOnlyClient
  Attestor : AttestationAuthority

/-- A call to a stateful collaborator made by `GetValidatedAttestations`. -/
inductive Event where
  | NewAtomicContainerSig (image : String)
  | Attestations (image : String) (aa : AttestationAuthority)
  | VerifySignature (key : PublicKey) (decodedSig : String)
  deriving DecidableEq, Repr

/-! ## Go maps with string keys -/

/-- A Go `map[string]V`: at most one entry per key. -/
abbrev GoMap (V : Type) := List (String × V)

/-- The assignment `m[k] = v`. -/
def GoMap.set {V : Type} (m : GoMap V) (k : String) (v : V) : GoMap V :=
  (k, v) :: m.filter (fun e => e.1 ≠ k)

/-- The two-result index expression `v, ok := m[k]`. -/
def GoMap.get? {V : Type} (m : GoMap V) (k : String) : Option V :=
  (m.find? (fun e => e.1 = k)).map Prod.snd

/-- The index expression `m[k]`, which is the zero value of `V` when `k` is missing. -/
def GoMap.index {V : Type} (zero : V) (m : GoMap V) (k : String) : V :=
  (m.get? k).getD zero

/-! ## Key validation -/

def validatePublicKeyType (pubKey : PublicKey) : Option Error :=
  if pubKey.KeyType = PgpKeyType then
    if pubKey.PkixPublicKey ≠ PkixPublicKey.zero then
      some (Error.pgpKeyPkixSet pubKey)
    else if pubKey.PgpPublicKey = "" then
      some (Error.pgpKeyPgpUnset pubKey)
    else none
  else if pubKey.KeyType = PkixKeyType then
    if pubKey.PgpPublicKey ≠ "" then
      some (Error.pkixKeyPgpSet pubKey)
    else if pubKey.PkixPublicKey = PkixPublicKey.zero then
      some (Error.pkixKeyPkixUnset pubKey)
    else none
  else
    some (Error.unsupportedKeyType pubKey.KeyType pubKey)

def validatePublicKeyId (env : Env) (avt : AttestorValidatingTransport) (pubKey : PublicKey) :
    Option Error :=
  if pubKey.KeyType = PgpKeyType then
    match env.KeyAndFingerprint pubKey.PgpPublicKey with
    | .error err => some (Error.pgpParse avt.Attestor.Name err)
    | .ok keyId =>
      if keyId ≠ pubKey.KeyId then
        some (Error.pgpKeyIdMismatch pubKey.KeyId)
      else none
  else if pubKey.KeyType = PkixKeyType then
    match env.urlParse pubKey.KeyId with
    | some _ => some (Error.pkixKeyIdNotUri pubKey.KeyId)
    | none => none
  else
    some (Error.unsupportedKeyType pubKey.KeyType pubKey)

def ValidatePublicKey (env : Env) (avt : AttestorValidatingTransport) (pubKey : PublicKey) :
    Option Error :=
  match validatePublicKeyType pubKey with
  | some err => some err
  | none =>
    match validatePublicKeyId env avt pubKey with
    | some err => some err
    | none => none

/-! ## `GetValidatedAttestations` -/

/-- The first loop of `GetValidatedAttestations` over the configured keys, from the map
`keys` built so far: a key that fails validation is skipped, the others are stored under
their key id. -/
def collectKeys (env : Env) (avt : AttestorValidatingTransport) :
    List PublicKey → GoMap PublicKey → GoMap PublicKey
  | [], keys => keys
  | pubKey :: rest, keys =>
    match ValidatePublicKey env avt pubKey with
    | some _ => collectKeys env avt rest keys
    | none => collectKeys env avt rest (keys.set pubKey.KeyId pubKey)

/-- The trusted-key mapping `keys` as it stands after the first loop. -/
def trustedKeys (env : Env) (avt : AttestorValidatingTransport) : GoMap PublicKey :=
  collectKeys env avt avt.Attestor.Spec.PublicKeys []

/-- The two results of `GetValidatedAttestations`. -/
abbrev Result := Option (List ValidatedAttestation) × Option Error

/-- The second loop of `GetValidatedAttestations` over the raw attestations, from the
output `out` and the calls `tr` made so far. -/
def verifyLoop (env : Env) (avt : AttestorValidatingTransport) (image : String) (host : Host)
    (keys : GoMap PublicKey) :
    List RawAttestation → List ValidatedAttestation → List Event → Result × List Event
  | [], out, tr => ((some out, none), tr)
  | rawAtt :: rest, out, tr =>
    if rawAtt.SignatureType ≠ SignatureType.PgpSignatureType then
      ((none, some (Error.unsupportedSignatureType rawAtt.SignatureType rawAtt)), tr)
    else
      match env.DecodeString rawAtt.Signature.Signature with
      | .error _ => verifyLoop env avt image host keys rest out tr
      | .ok decodedSig =>
        let keyId := rawAtt.Signature.PublicKeyId
        let key := GoMap.index PublicKey.zero keys keyId
        match host.VerifySignature key decodedSig with
        | some _ =>
          verifyLoop env avt image host keys rest out (tr ++ [Event.VerifySignature key decodedSig])
        | none =>
          verifyLoop env avt image host keys rest
            (out ++ [{ AttestorName := avt.Attestor.Name, Image := image }])
            (tr ++ [Event.VerifySignature key decodedSig])

/-- The method `GetValidatedAttestations`, with the collaborator calls it makes. -/
def GetValidatedAttestationsTraced (env : Env) (avt : AttestorValidatingTransport)
    (image : String) : Result × List Event :=
  let keys := trustedKeys env avt
  if keys.length = 0 then
    ((none, some (Error.noValidKey avt.Attestor.Name)), [])
  else
    match env.NewAtomicContainerSig image with
    | .error err => ((none, some err), [Event.NewAtomicContainerSig image])
    | .ok host =>
      match avt.Client.Attestations image avt.Attestor with
      | (_, some err) =>
        ((none, some err), [Event.NewAtomicContainerSig image, Event.Attestations image avt.Attestor])
      | (rawAtts, none) =>
        verifyLoop env avt image host keys (rawAtts.getD []) []
          [Event.NewAtomicContainerSig image, Event.Attestations image avt.Attestor]

/-- The results of `GetValidatedAttestations(image)`. -/
def GetValidatedAttestations (env : Env) (avt : AttestorValidatingTransport) (image : String) :
    Result :=
  (GetValidatedAttestationsTraced env avt image).1

/-- The collaborator calls `GetValidatedAttestations(image)` makes, in order. -/
def GetValidatedAttestationsCalls (env : Env) (avt : AttestorValidatingTransport)
    (image : String) : List Event :=
  (GetValidatedAttestationsTraced env avt image).2

/-! ## The loop body, item by item -/

/-- The call to `VerifySignature` the second loop makes for `rawAtt`, if it makes one:
none when the signature does not decode, and otherwise the call with the key the mapping
holds for the declared key id and with the decoded signature. -/
def verifyCall (env : Env) (keys : GoMap PublicKey) (rawAtt : RawAttestation) : Option Event :=
  match env.DecodeString rawAtt.Signature.Signature with
  | .error _ => none
  | .ok decodedSig =>
    some (Event.VerifySignature (GoMap.index PublicKey.zero keys rawAtt.Signature.PublicKeyId)
      decodedSig)

/-- Whether `rawAtt` decodes and verifies: its signature base64-decodes and
`VerifySignature` accepts the decoded bytes under the key the mapping holds for the
declared key id. -/
def verifies (env : Env) (host : Host) (keys : GoMap PublicKey) (rawAtt : RawAttestation) :
    Bool :=
  match env.DecodeString rawAtt.Signature.Signature with
  | .error _ => false
  | .ok decodedSig =>
    (host.VerifySignature (GoMap.index PublicKey.zero keys rawAtt.Signature.PublicKeyId)
      decodedSig).isNone

/-- Whether the signature type of `rawAtt` is the supported one. -/
def isPgp (rawAtt : RawAttestation) : Bool :=
  decide (rawAtt.SignatureType = SignatureType.PgpSignatureType)

/-- Whether `pubKey` passes `ValidatePublicKey` and is declared under the key id `id`. -/
def trustedAs (env : Env) (avt : AttestorValidatingTransport) (id : String)
    (pubKey : PublicKey) : Bool :=
  decide (ValidatePublicKey env avt pubKey = none ∧ pubKey.KeyId = id)

/-! ## Concrete collaborators, for evaluating the definitions -/

/-- A key parser that rejects the material `"bad"` and gives every other material `m` the
fingerprint `"FP-" ++ m`. -/
def demoKeyAndFingerprint (material : String) : Except String String :=
  if material = "bad" then .error "no armored data" else .ok ("FP-" ++ material)

/-- A URI parser that rejects exactly the text `"%"`. -/
def demoUrlParse (uri : String) : Option Error :=
  if uri = "%" then some (Error.external "invalid URL escape") else none

/-- A decoder that rejects exactly the text `"!"` and maps every other text to itself. -/
def demoDecodeString (text : String) : Except Error String :=
  if text = "!" then .error (Error.external "illegal base64 data") else .ok text

/-- A signature context that accepts the payload `"signed-by-" ++ id` under a key whose id
is `id`, for a non-empty `id`, and nothing else. -/
def demoHost : Host where
  VerifySignature key decodedSig :=
    if key.KeyId ≠ "" ∧ decodedSig = "signed-by-" ++ key.KeyId then none
    else some (Error.external "signature mismatch")

def demoEnv : Env where
  KeyAndFingerprint := demoKeyAndFingerprint
  urlParse := demoUrlParse
  DecodeString := demoDecodeString
  NewAtomicContainerSig _ := .ok demoHost

/-- A well-formed PGP key for `demoEnv`. -/
def demoPgpKey : PublicKey :=
  { KeyType := "PGP", KeyId := "FP-k1", PgpPublicKey := "k1", PkixPublicKey := ⟨""⟩ }

/-- A well-formed PKIX key for `demoEnv`. -/
def demoPkixKey : PublicKey :=
  { KeyType := "PKIX", KeyId := "kms://k2", PgpPublicKey := "", PkixPublicKey := ⟨"pem"⟩ }

/-- A PGP key whose material does not parse in `demoEnv`. -/
def demoBadPgpKey : PublicKey :=
  { KeyType := "PGP", KeyId := "FP-bad", PgpPublicKey := "bad", PkixPublicKey := ⟨""⟩ }

/-- A raw attestation of the given signature type, key id and base64 text. -/
def demoAtt (t : SignatureType) (keyId sig : String) : RawAttestation :=
  { AttestationType := PgpAttestationType
    PGPAttestation := { Signature := { Signature := [], PublicKeyId := keyId }, OccID := "occ" }
    GenericAttestation := { SerializedPayload := [], Signatures := [] }
    SignatureType := t
    Signature := { PublicKeyId := keyId, Signature := sig } }

/-- A client that returns the given batch of raw attestations for every image. -/
def demoClient (batch : List RawAttestation) : ReadOnlyClient where
  Vulnerabilities _ := (some [], none)
  Attestations _ _ := (some batch, none)

/-- A validator named `name` with the given keys, whose client returns `batch`. -/
def demoAvt (name : String) (keys : List PublicKey) (batch : List RawAttestation) :
    AttestorValidatingTransport where
  Client := demoClient batch
  Attestor := { Name := name, Spec := { NoteReference := "projects/p/notes/n", PublicKeys := keys } }

/-- A validator with one trusted key and one key that fails validation, whose client
returns three PGP attestations: one that verifies, one that does not decode and one with a
key id that is not trusted. -/
def demoAvtMixed : AttestorValidatingTransport :=
  demoAvt "att" [demoPgpKey, demoBadPgpKey]
    [demoAtt SignatureType.PgpSignatureType "FP-k1" "signed-by-FP-k1",
     demoAtt SignatureType.PgpSignatureType "FP-k1" "!",
     demoAtt SignatureType.PgpSignatureType "unknown" "signed-by-unknown"]

/-- A validator with one trusted key whose client returns a verifying PGP attestation
followed by one of an unsupported signature type. -/
def demoAvtGeneric : AttestorValidatingTransport :=
  demoAvt "att" [demoPgpKey]
    [demoAtt SignatureType.PgpSignatureType "FP-k1" "signed-by-FP-k1",
     demoAtt SignatureType.GenericSignatureType "FP-k1" "signed-by-FP-k1"]

/-- A validator whose only configured key fails validation. -/
def demoAvtNoKey : AttestorValidatingTransport :=
  demoAvt "att" [demoBadPgpKey]
    [demoAtt SignatureType.PgpSignatureType "FP-k1" "signed-by-FP-k1"]

/-- A validator with one trusted key whose client returns one PGP attestation with a key
id that is not trusted and a signature that does not decode. -/
def demoAvtUndecodable : AttestorValidatingTransport :=
  demoAvt "att" [demoPgpKey] [demoAtt SignatureType.PgpSignatureType "unknown" "!"]

/-- A validator with one trusted key whose client returns one attestation of the generic
type with a key id that is not trusted. -/
def demoAvtUnknownGeneric : AttestorValidatingTransport :=
  demoAvt "att" [demoPgpKey]
    [demoAtt SignatureType.GenericSignatureType "unknown" "signed-by-unknown"]

/-- A validator with one trusted key whose client returns a verifying attestation, a PGP
attestation with a key id that is not trusted, and a second verifying attestation. -/
def demoAvtUnknown : AttestorValidatingTransport :=
  demoAvt "att" [demoPgpKey]
    ([demoAtt SignatureType.PgpSignatureType "FP-k1" "signed-by-FP-k1"] ++
      demoAtt SignatureType.PgpSignatureType "unknown" "signed-by-unknown" ::
      [demoAtt SignatureType.PgpSignatureType "FP-k1" "signed-by-FP-k1"])

/-- A signature-context constructor that fails for every image. -/
def demoEnvNoHost : Env :=
  { demoEnv with NewAtomicContainerSig := fun _ => .error (Error.external "invalid image") }

/-- A validator with one trusted key whose client fails, while still returning a batch. -/
def demoAvtClientFails : AttestorValidatingTransport where
  Client :=
    { Vulnerabilities := fun _ => (none, some (Error.external "unavailable"))
      Attestations := fun _ _ =>
        (some [demoAtt SignatureType.PgpSignatureType "FP-k1" "signed-by-FP-k1"],
          some (Error.external "unavailable")) }
  Attestor :=
    { Name := "att", Spec := { NoteReference := "projects/p/notes/n", PublicKeys := [demoPgpKey] } }

/-- A key of a type that is neither PGP nor PKIX, with PGP material that would not parse. -/
def demoRsaKey : PublicKey :=
  { KeyType := "RSA", KeyId := "FP-bad", PgpPublicKey := "bad", PkixPublicKey := ⟨"pem"⟩ }

/-! ## The metadata cache

The cache of `containeranalysis` is known from its tests (`cache_test.go`), which build a
`Cache` from its four fields and call its three read operations, and from the contract
of the spec. The model gives, for each operation, the pair it returns and the calls it
makes to the wrapped client. What an operation writes to the maps is not modelled. -/

/-- Modelled from the spec: the external type `grafeas.Note`, of which the tests of the
cache read the name. -/
structure Note where
  Name : String
  deriving DecidableEq, Repr

/-- A pointer `*v1beta1.AttestationAuthority`: its address, which is the identity of the
instance, and the value it points to. -/
structure AuthorityPtr where
  addr : Nat
  target : AttestationAuthority
  deriving DecidableEq, Repr

/-- The read operations of the interface `metadata.ReadWriteClient`, each with the pair
the Go method returns. The two create operations and `Close` are left out. -/
structure ReadWriteClient where
  Vulnerabilities : String → Option (List Vulnerability) × Option Error
  AttestationNote : AuthorityPtr → Option Note × Option Error
  Attestations : String → AuthorityPtr → Option (List RawAttestation) × Option Error

/-- A Go `map[*v1beta1.AttestationAuthority]V`: the key of an entry is an address. -/
abbrev PtrMap (V : Type) := List (Nat × V)

/-- The two-result index expression `v, ok := m[aa]` on a map keyed by pointer. -/
def PtrMap.get? {V : Type} (m : PtrMap V) (aa : AuthorityPtr) : Option V :=
  (m.find? (fun e => e.1 = aa.addr)).map Prod.snd

/-- Modelled from the spec: the type `containeranalysis.Cache`, whose declaration is not
among the sources. The four fields and their types are those of the composite literals in
`cache_test.go`; a map that is `nil` is `none`, a stored slice or note that is `nil` is
`none`. -/
structure Cache where
  client : ReadWriteClient
  vuln : Option (GoMap (Option (List Vulnerability)))
  att : Option (GoMap (Option (List RawAttestation)))
  notes : Option (PtrMap (Option Note))

/-- A call the cache makes to the client it wraps. -/
inductive ClientCall where
  | Vulnerabilities (image : String)
  | Attestations (image : String) (aa : AuthorityPtr)
  | AttestationNote (aa : AuthorityPtr)
  deriving DecidableEq, Repr

/-- Modelled from the spec: the method `Cache.Vulnerabilities`, which is not among the
sources. If `image` is a key of the vulnerability map it returns the stored slice and a
nil error, without a call to the client; otherwise it delegates to the `Vulnerabilities`
of the wrapped client and returns its result and error unchanged. -/
def Cache.Vulnerabilities (c : Cache) (image : String) :
    (Option (List Vulnerability) × Option Error) × List ClientCall :=
  match (c.vuln.getD []).get? image with
  | some v => ((v, none), [])
  | none => (c.client.Vulnerabilities image, [ClientCall.Vulnerabilities image])

/-- Modelled from the spec: the method `Cache.Attestations`, which is not among the
sources. The same pattern as `Cache.Vulnerabilities`, keyed by the image only; the
authority is handed to the client on a miss. -/
def Cache.Attestations (c : Cache) (image : String) (aa : AuthorityPtr) :
    (Option (List RawAttestation) × Option Error) × List ClientCall :=
  match (c.att.getD []).get? image with
  | some a => ((a, none), [])
  | none => (c.client.Attestations image aa, [ClientCall.Attestations image aa])

/-- Modelled from the spec: the method `Cache.AttestationNote`, which is not among the
sources. The key is the identity of the authority instance; on a miss it delegates to the
`AttestationNote` of the wrapped client. -/
def Cache.AttestationNote (c : Cache) (aa : AuthorityPtr) :
    (Option Note × Option Error) × List ClientCall :=
  match (c.notes.getD []).get? aa with
  | some n => ((n, none), [])
  | none => (c.client.AttestationNote aa, [ClientCall.AttestationNote aa])

/-! ### The fixtures of `cache_test.go` -/

/-- The test double `testutil.MockMetadataClient`, whose declaration is not among the
sources, as the tests of the cache expect it to behave: it returns its fields `Vulnz` and
`RawAttestations` with a nil error, and a note named after the note reference of the
authority. -/
def MockMetadataClient (Vulnz : Option (List Vulnerability))
    (RawAttestations : Option (List RawAttestation)) : ReadWriteClient where
  Vulnerabilities _ := (Vulnz, none)
  AttestationNote aa := (some { Name := aa.target.Spec.NoteReference }, none)
  Attestations _ _ := (RawAttestations, none)

/-- A client whose three read operations fail, returning nothing. -/
def failingClient : ReadWriteClient where
  Vulnerabilities _ := (none, some (Error.external "unavailable"))
  AttestationNote _ := (none, some (Error.external "unavailable"))
  Attestations _ _ := (none, some (Error.external "unavailable"))

/-- The conversion `[]byte(s)`: the UTF-8 bytes of a string. -/
def bytes (s : String) : List UInt8 :=
  (s.toList.map String.utf8EncodeChar).flatten

def makePgpAtt (signature id occID : String) : PGPAttestation :=
  { Signature := { Signature := bytes signature, PublicKeyId := id }, OccID := occID }

def makeRawAttestationPgp (signature id occID : String) : RawAttestation :=
  { AttestationType := PgpAttestationType
    PGPAttestation := makePgpAtt signature id occID
    GenericAttestation := { SerializedPayload := [], Signatures := [] }
    SignatureType := SignatureType.UnknownSignatureType
    Signature := { PublicKeyId := "", Signature := "" } }

/-- The vulnerability with the given CVE and zero values elsewhere. -/
def vulnCVE (cve : String) : Vulnerability :=
  { Severity := "", HasFixAvailable := false, CVE := cve }

/-- The cache of `TestVCache`. -/
def vCacheFixture : Cache where
  client := MockMetadataClient (some [vulnCVE "CVE-misss"]) none
  vuln := some [("image-hit", some [vulnCVE "CVE-1"])]
  att := none
  notes := none

/-- The cache of `TestACache`. -/
def aCacheFixture : Cache where
  client := MockMetadataClient none (some [makeRawAttestationPgp "" "" "occc-miss"])
  vuln := none
  att := some [("image-hit", some [makeRawAttestationPgp "" "" "occc-1"])]
  notes := none

/-- The authority of `TestACache`, at the given address. -/
def aCacheAuthority (addr : Nat) : AuthorityPtr where
  addr := addr
  target :=
    { Name := "test-aa-note"
      Spec := { NoteReference := "projects/kritis-int-test/notes/test-aa-note", PublicKeys := [] } }

/-- The authority `aaHit` of `TestNCache`, at the given address. -/
def aaHit (addr : Nat) : AuthorityPtr where
  addr := addr
  target := { Name := "test-aa", Spec := { NoteReference := "", PublicKeys := [] } }

/-- The authority `aaMiss` of `TestNCache`, at the given address. -/
def aaMiss (addr : Nat) : AuthorityPtr where
  addr := addr
  target := { Name := "", Spec := { NoteReference := "from-client", PublicKeys := [] } }

/-- The cache of `TestNCache`, with `aaHit` at address 1. -/
def nCacheFixture : Cache where
  client := MockMetadataClient none none
  vuln := none
  att := none
  notes := some [((aaHit 1).addr, some { Name := "from-cache" })]

/-! ## Theorems: `ParseNoteReference` -/

/-- C10: `ParseNoteReference ref` succeeds exactly when splitting `ref` on `/` gives four
segments, the first `projects` and the third `notes`; it then returns the second and the
fourth segment with a nil error, and otherwise two empty strings with the format error.
So `projects/p/notes/n` parses to `p` and `n`, while `projects/p/n`, `x/p/notes/n` and the
empty string fail. -/
theorem ParseNoteReference_four_segments (ref : String) :
    ((ParseNoteReference ref).2.2 = none ↔
        ∃ p n, splitSlash ref = ["projects", p, "notes", n]) ∧
      (∀ p n, splitSlash ref = ["projects", p, "notes", n] →
        ParseNoteReference ref = (p, n, none)) ∧
      ((¬ ∃ p n, splitSlash ref = ["projects", p, "notes", n]) →
        ParseNoteReference ref = ("", "", some Error.invalidNoteReference)) ∧
      ParseNoteReference "projects/p/notes/n" = ("p", "n", none) ∧
      ParseNoteReference "projects/p/n" = ("", "", some Error.invalidNoteReference) ∧
      ParseNoteReference "x/p/notes/n" = ("", "", some Error.invalidNoteReference) ∧
      ParseNoteReference "" = ("", "", some Error.invalidNoteReference) := by
  refine ⟨?_, ?_, ?_, by decide, by decide, by decide, by decide⟩
  · unfold ParseNoteReference
    generalize splitSlash ref = parts
    rcases parts with _ | ⟨a, _ | ⟨b, _ | ⟨c, _ | ⟨d, _ | ⟨e, r⟩⟩⟩⟩⟩ <;> simp [part]
    by_cases ha : a = "projects" <;> by_cases hc : c = "notes" <;> simp [ha, hc]
  · intro p n h
    simp [ParseNoteReference, h, part]
  · unfold ParseNoteReference
    generalize splitSlash ref = parts
    rcases parts with _ | ⟨a, _ | ⟨b, _ | ⟨c, _ | ⟨d, _ | ⟨e, r⟩⟩⟩⟩⟩ <;> simp [part]

/-! ## Theorems: key validation -/

theorem PgpKeyType_ne_PkixKeyType : PgpKeyType ≠ PkixKeyType := by decide

/-- Stage 1 accepts a key exactly when its type and its material agree. -/
theorem validatePublicKeyType_eq_none_iff (pubKey : PublicKey) :
    validatePublicKeyType pubKey = none ↔
      (pubKey.KeyType = PgpKeyType ∧ pubKey.PkixPublicKey = PkixPublicKey.zero ∧
          pubKey.PgpPublicKey ≠ "") ∨
        (pubKey.KeyType = PkixKeyType ∧ pubKey.PgpPublicKey = "" ∧
          pubKey.PkixPublicKey ≠ PkixPublicKey.zero) := by
  have hne := PgpKeyType_ne_PkixKeyType
  unfold validatePublicKeyType
  by_cases h1 : pubKey.KeyType = PgpKeyType
  · have h2 : pubKey.KeyType ≠ PkixKeyType := fun h => hne (h1.symm.trans h)
    by_cases h3 : pubKey.PkixPublicKey = PkixPublicKey.zero <;>
      by_cases h4 : pubKey.PgpPublicKey = "" <;> simp [h1, h2, h3, h4, hne]
  · by_cases h2 : pubKey.KeyType = PkixKeyType
    · by_cases h3 : pubKey.PkixPublicKey = PkixPublicKey.zero <;>
        by_cases h4 : pubKey.PgpPublicKey = "" <;> simp [h1, h2, h3, h4, hne.symm]
    · simp [h1, h2]

/-- Stage 2 accepts a key exactly when its key id has the format of its type. -/
theorem validatePublicKeyId_eq_none_iff (env : Env) (avt : AttestorValidatingTransport)
    (pubKey : PublicKey) :
    validatePublicKeyId env avt pubKey = none ↔
      (pubKey.KeyType = PgpKeyType ∧
          env.KeyAndFingerprint pubKey.PgpPublicKey = .ok pubKey.KeyId) ∨
        (pubKey.KeyType = PkixKeyType ∧ env.urlParse pubKey.KeyId = none) := by
  have hne := PgpKeyType_ne_PkixKeyType
  unfold validatePublicKeyId
  by_cases h1 : pubKey.KeyType = PgpKeyType
  · have h2 : pubKey.KeyType ≠ PkixKeyType := fun h => hne (h1.symm.trans h)
    cases h3 : env.KeyAndFingerprint pubKey.PgpPublicKey with
    | error err => simp [h1, h2, hne]
    | ok keyId =>
      by_cases h4 : keyId = pubKey.KeyId <;> simp [h1, h2, h4, hne]
  · by_cases h2 : pubKey.KeyType = PkixKeyType
    · cases h3 : env.urlParse pubKey.KeyId <;> simp [h1, h2, h3, hne.symm]
    · simp [h1, h2]

/-- The validator accepts a key exactly when both stages accept it. -/
theorem ValidatePublicKey_eq_none_iff (env : Env) (avt : AttestorValidatingTransport)
    (pubKey : PublicKey) :
    ValidatePublicKey env avt pubKey = none ↔
      validatePublicKeyType pubKey = none ∧ validatePublicKeyId env avt pubKey = none := by
  unfold ValidatePublicKey
  cases validatePublicKeyType pubKey <;> cases validatePublicKeyId env avt pubKey <;> simp

/-- C8: `validatePublicKeyType` returns nil exactly for a PGP key with zero PKIX material
and non-empty PGP material, and for a PKIX key with empty PGP material and non-zero PKIX
material; so a key that `ValidatePublicKey` accepts has exactly one of the two material
fields populated. -/
theorem validatePublicKeyType_consistency (pubKey : PublicKey) :
    (validatePublicKeyType pubKey = none ↔
      (pubKey.KeyType = PgpKeyType ∧ pubKey.PkixPublicKey = PkixPublicKey.zero ∧
          pubKey.PgpPublicKey ≠ "") ∨
        (pubKey.KeyType = PkixKeyType ∧ pubKey.PgpPublicKey = "" ∧
          pubKey.PkixPublicKey ≠ PkixPublicKey.zero)) ∧
      ∀ (env : Env) (avt : AttestorValidatingTransport),
        ValidatePublicKey env avt pubKey = none →
          Xor' (pubKey.PgpPublicKey ≠ "") (pubKey.PkixPublicKey ≠ PkixPublicKey.zero) := by
  refine ⟨validatePublicKeyType_eq_none_iff pubKey, ?_⟩
  intro env avt h
  have h1 := ((ValidatePublicKey_eq_none_iff env avt pubKey).1 h).1
  rcases (validatePublicKeyType_eq_none_iff pubKey).1 h1 with ⟨_, hz, hp⟩ | ⟨_, hp, hz⟩
  · exact Or.inl ⟨hp, fun hn => hn hz⟩
  · exact Or.inr ⟨hz, fun hn => hn hp⟩

/-- C7: for a key of type PGP or PKIX, `ValidatePublicKey` succeeds exactly when the type
and the populated material agree (PGP: PGP material non-empty, PKIX material zero; PKIX:
PKIX material non-zero, PGP material empty) and the key id has the format of the type
(PGP: the material parses and its fingerprint is the declared key id; PKIX: the key id
parses as a URI). -/
theorem ValidatePublicKey_totality (env : Env) (avt : AttestorValidatingTransport)
    (pubKey : PublicKey)
    (htype : pubKey.KeyType = PgpKeyType ∨ pubKey.KeyType = PkixKeyType) :
    ValidatePublicKey env avt pubKey = none ↔
      ((pubKey.KeyType = PgpKeyType →
            pubKey.PgpPublicKey ≠ "" ∧ pubKey.PkixPublicKey = PkixPublicKey.zero) ∧
          (pubKey.KeyType = PkixKeyType →
            pubKey.PkixPublicKey ≠ PkixPublicKey.zero ∧ pubKey.PgpPublicKey = "")) ∧
        ((pubKey.KeyType = PgpKeyType →
            env.KeyAndFingerprint pubKey.PgpPublicKey = .ok pubKey.KeyId) ∧
          (pubKey.KeyType = PkixKeyType → env.urlParse pubKey.KeyId = none)) := by
  have hne := PgpKeyType_ne_PkixKeyType
  rw [ValidatePublicKey_eq_none_iff, validatePublicKeyType_eq_none_iff,
    validatePublicKeyId_eq_none_iff]
  rcases htype with h | h
  · have h2 : pubKey.KeyType ≠ PkixKeyType := fun h' => hne (h.symm.trans h')
    simp only [h, hne, false_and, or_false, true_and, true_implies, false_implies, and_true]
    tauto
  · have h2 : pubKey.KeyType ≠ PgpKeyType := fun h' => hne (h'.symm.trans h)
    simp only [h, hne.symm, false_and, false_or, true_and, true_implies, false_implies, and_true,
      true_and]
    tauto

/-- Witness for C7 at a well-formed PGP key. -/
theorem ValidatePublicKey_totality_witness :
    (demoPgpKey.KeyType = PgpKeyType ∨ demoPgpKey.KeyType = PkixKeyType) ∧
      (ValidatePublicKey demoEnv (demoAvt "a" [] []) demoPgpKey = none ↔
        ((demoPgpKey.KeyType = PgpKeyType →
              demoPgpKey.PgpPublicKey ≠ "" ∧ demoPgpKey.PkixPublicKey = PkixPublicKey.zero) ∧
            (demoPgpKey.KeyType = PkixKeyType →
              demoPgpKey.PkixPublicKey ≠ PkixPublicKey.zero ∧ demoPgpKey.PgpPublicKey = "")) ∧
          ((demoPgpKey.KeyType = PgpKeyType →
              demoEnv.KeyAndFingerprint demoPgpKey.PgpPublicKey = .ok demoPgpKey.KeyId) ∧
            (demoPgpKey.KeyType = PkixKeyType → demoEnv.urlParse demoPgpKey.KeyId = none))) :=
  ⟨by decide, ValidatePublicKey_totality demoEnv (demoAvt "a" [] []) demoPgpKey (by decide)⟩

/-- C9, as stated, fails: a PGP key whose material does not parse is rejected with an
error that names the attestor of the validator, so two validators that differ in the
attestor name return different errors for the same key. -/
theorem ValidatePublicKey_error_depends_on_attestor :
    ¬ ∀ (env : Env) (avt₁ avt₂ : AttestorValidatingTransport) (pubKey : PublicKey),
        ValidatePublicKey env avt₁ pubKey = ValidatePublicKey env avt₂ pubKey := by
  intro h
  have h1 := h demoEnv (demoAvt "a" [] []) (demoAvt "b" [] []) demoBadPgpKey
  revert h1
  decide

/-- C9, amended: for any two validators, `ValidatePublicKey` accepts a key under one
exactly when it accepts it under the other; the two results are equal whenever the two
attestor names are equal, whatever the configured keys and the clients; and two results
that differ are both the PGP parse error, with the same cause, each naming the attestor
of its validator. -/
theorem ValidatePublicKey_pure_up_to_attestor_name (env : Env)
    (avt₁ avt₂ : AttestorValidatingTransport) (pubKey : PublicKey) :
    (ValidatePublicKey env avt₁ pubKey = none ↔ ValidatePublicKey env avt₂ pubKey = none) ∧
      (avt₁.Attestor.Name = avt₂.Attestor.Name →
        ValidatePublicKey env avt₁ pubKey = ValidatePublicKey env avt₂ pubKey) ∧
      (ValidatePublicKey env avt₁ pubKey ≠ ValidatePublicKey env avt₂ pubKey →
        ∃ err, env.KeyAndFingerprint pubKey.PgpPublicKey = .error err ∧
          ValidatePublicKey env avt₁ pubKey = some (Error.pgpParse avt₁.Attestor.Name err) ∧
          ValidatePublicKey env avt₂ pubKey = some (Error.pgpParse avt₂.Attestor.Name err)) := by
  refine ⟨?_, ?_, ?_⟩
  · simp only [ValidatePublicKey_eq_none_iff, validatePublicKeyId_eq_none_iff]
  · intro hname
    simp only [ValidatePublicKey, validatePublicKeyId, hname]
  · unfold ValidatePublicKey validatePublicKeyId
    cases validatePublicKeyType pubKey with
    | some e => simp
    | none =>
      by_cases h1 : pubKey.KeyType = PgpKeyType
      · cases h3 : env.KeyAndFingerprint pubKey.PgpPublicKey with
        | error err => simp [h1]
        | ok keyId => simp [h1]
      · simp [h1]

/-! ## Lemmas: the trusted-key mapping -/

theorem GoMap.get?_set {V : Type} (m : GoMap V) (k k' : String) (v : V) :
    (m.set k v).get? k' = if k' = k then some v else m.get? k' := by
  unfold GoMap.set GoMap.get?
  by_cases h : k' = k
  · subst h
    simp
  · have h' : ¬ k = k' := fun e => h e.symm
    simp only [List.find?_cons, h', decide_False, h, if_false]
    rw [List.find?_filter]
    congr 2
    funext e
    by_cases he : e.1 = k' <;> simp [he, h]

theorem collectKeys_get? (env : Env) (avt : AttestorValidatingTransport) (id : String)
    (l : List PublicKey) (m : GoMap PublicKey) :
    (collectKeys env avt l m).get? id =
      ((l.filter (trustedAs env avt id)).getLast?).or (m.get? id) := by
  induction l generalizing m with
  | nil => simp [collectKeys]
  | cons pubKey rest ih =>
    unfold collectKeys
    cases hv : ValidatePublicKey env avt pubKey with
    | some e =>
      simp only [ih, List.filter_cons, trustedAs, hv]
      simp
    | none =>
      simp only [ih, GoMap.get?_set, List.filter_cons]
      by_cases hid : pubKey.KeyId = id
      · have ht : trustedAs env avt id pubKey = true := by simp [trustedAs, hv, hid]
        simp only [ht, if_true, List.getLast?_cons, hid]
        cases (List.filter (trustedAs env avt id) rest).getLast? <;> simp
      · have ht : trustedAs env avt id pubKey = false := by simp [trustedAs, hv, hid]
        have hid' : ¬ id = pubKey.KeyId := fun e => hid e.symm
        simp [ht, hid']

theorem collectKeys_eq_nil_iff (env : Env) (avt : AttestorValidatingTransport)
    (l : List PublicKey) (m : GoMap PublicKey) :
    collectKeys env avt l m = [] ↔
      m = [] ∧ ∀ pubKey ∈ l, ValidatePublicKey env avt pubKey ≠ none := by
  induction l generalizing m with
  | nil => simp [collectKeys]
  | cons pubKey rest ih =>
    unfold collectKeys
    cases hv : ValidatePublicKey env avt pubKey with
    | some e => simp [ih, hv]
    | none => simp [ih, hv, GoMap.set]

theorem trustedKeys_length_eq_zero_iff (env : Env) (avt : AttestorValidatingTransport) :
    (trustedKeys env avt).length = 0 ↔
      ∀ pubKey ∈ avt.Attestor.Spec.PublicKeys, ValidatePublicKey env avt pubKey ≠ none := by
  rw [List.length_eq_zero]
  simp [trustedKeys, collectKeys_eq_nil_iff]

/-- The key `keys[id]` of the trusted-key mapping is the zero key or a configured key that
passed validation and is declared under `id`. -/
theorem trustedKeys_index (env : Env) (avt : AttestorValidatingTransport) (id : String) :
    GoMap.index PublicKey.zero (trustedKeys env avt) id = PublicKey.zero ∨
      (GoMap.index PublicKey.zero (trustedKeys env avt) id ∈ avt.Attestor.Spec.PublicKeys ∧
        ValidatePublicKey env avt (GoMap.index PublicKey.zero (trustedKeys env avt) id) = none ∧
        (GoMap.index PublicKey.zero (trustedKeys env avt) id).KeyId = id) := by
  unfold GoMap.index trustedKeys
  rw [collectKeys_get?]
  cases h : (List.filter (trustedAs env avt id) avt.Attestor.Spec.PublicKeys).getLast? with
  | none => left; simp [GoMap.get?]
  | some k =>
    right
    obtain ⟨ys, hys⟩ := List.getLast?_eq_some_iff.1 h
    have hk : k ∈ List.filter (trustedAs env avt id) avt.Attestor.Spec.PublicKeys := by
      rw [hys]; simp
    rw [List.mem_filter] at hk
    have h2 := hk.2
    simp only [trustedAs, decide_eq_true_eq] at h2
    simpa using ⟨hk.1, h2.1, h2.2⟩

/-! ## Lemmas: the verification loop -/

/-- The second loop in closed form. It stops at the first raw attestation of an
unsupported signature type, with an error and a nil list; when there is none it returns
`out` followed by one entry per raw attestation that decodes and verifies. The calls it
adds are those for the attestations before the stop. -/
theorem verifyLoop_eq (env : Env) (avt : AttestorValidatingTransport) (image : String)
    (host : Host) (keys : GoMap PublicKey) (l : List RawAttestation)
    (out : List ValidatedAttestation) (tr : List Event) :
    verifyLoop env avt image host keys l out tr =
      (match l.find? (fun a => !isPgp a) with
        | some a => (none, some (Error.unsupportedSignatureType a.SignatureType a))
        | none =>
          (some (out ++ List.replicate (l.countP (verifies env host keys))
            { AttestorName := avt.Attestor.Name, Image := image }), none),
        tr ++ (l.takeWhile isPgp).filterMap (verifyCall env keys)) := by
  induction l generalizing out tr with
  | nil => simp [verifyLoop]
  | cons a rest ih =>
    unfold verifyLoop
    by_cases hp : a.SignatureType = SignatureType.PgpSignatureType
    · have hp' : isPgp a = true := by simp [isPgp, hp]
      simp only [hp, ne_eq, not_true_eq_false, if_false, List.find?_cons, hp', Bool.not_true,
        List.takeWhile_cons, if_true, List.filterMap_cons, List.countP_cons]
      cases hd : env.DecodeString a.Signature.Signature with
      | error e => simp [ih, verifies, verifyCall, hd]
      | ok decodedSig =>
        cases hv : host.VerifySignature
            (GoMap.index PublicKey.zero keys a.Signature.PublicKeyId) decodedSig with
        | some e => simp [ih, verifies, verifyCall, hd, hv]
        | none =>
          simp [ih, verifies, verifyCall, hd, hv, List.replicate_succ]
    · have hp' : isPgp a = false := by simp [isPgp, hp]
      simp [hp, hp']

theorem find?_not_isPgp_eq_none_iff (l : List RawAttestation) :
    l.find? (fun a => !isPgp a) = none ↔
      ∀ a ∈ l, a.SignatureType = SignatureType.PgpSignatureType := by
  simp [List.find?_eq_none, isPgp]

/-- The method in closed form, once it has a trusted key, a signature context and a batch
of raw attestations. -/
theorem GetValidatedAttestationsTraced_eq (env : Env) (avt : AttestorValidatingTransport)
    (image : String) (host : Host) (rawAtts : Option (List RawAttestation))
    (hkey : ∃ pubKey ∈ avt.Attestor.Spec.PublicKeys, ValidatePublicKey env avt pubKey = none)
    (hhost : env.NewAtomicContainerSig image = .ok host)
    (hclient : avt.Client.Attestations image avt.Attestor = (rawAtts, none)) :
    GetValidatedAttestationsTraced env avt image =
      verifyLoop env avt image host (trustedKeys env avt) (rawAtts.getD []) []
        [Event.NewAtomicContainerSig image, Event.Attestations image avt.Attestor] := by
  have hlen : ¬ (trustedKeys env avt).length = 0 := by
    rw [trustedKeys_length_eq_zero_iff]
    obtain ⟨k, hk, hv⟩ := hkey
    exact fun h => h k hk hv
  unfold GetValidatedAttestationsTraced
  simp only [hlen, if_false, hhost, hclient]

/-! ## Theorems: `GetValidatedAttestations` -/

/-- C1: when some configured key passes `ValidatePublicKey`, the signature context is
constructed and the client returns `N` raw attestations that all carry the PGP signature
type, the call returns a nil error and a list of exactly `K` entries, where `K` counts the
raw attestations whose signature decodes and verifies under the key looked up by the
declared key id; and `K ≤ N`. A nil batch counts as the empty one. -/
theorem GetValidatedAttestations_partial_failure (env : Env)
    (avt : AttestorValidatingTransport) (image : String) (host : Host)
    (rawAtts : Option (List RawAttestation))
    (hkey : ∃ pubKey ∈ avt.Attestor.Spec.PublicKeys, ValidatePublicKey env avt pubKey = none)
    (hhost : env.NewAtomicContainerSig image = .ok host)
    (hclient : avt.Client.Attestations image avt.Attestor = (rawAtts, none))
    (hpgp : ∀ a ∈ rawAtts.getD [], a.SignatureType = SignatureType.PgpSignatureType) :
    ∃ out, GetValidatedAttestations env avt image = (some out, none) ∧
      out.length = (rawAtts.getD []).countP (verifies env host (trustedKeys env avt)) ∧
      out.length ≤ (rawAtts.getD []).length := by
  unfold GetValidatedAttestations
  rw [GetValidatedAttestationsTraced_eq env avt image host rawAtts hkey hhost hclient,
    verifyLoop_eq]
  simp only [(find?_not_isPgp_eq_none_iff _).2 hpgp, List.nil_append]
  exact ⟨_, rfl, by simp, by simpa using List.countP_le_length _⟩

/-- Witness for C1: of three PGP attestations, one verifies. -/
theorem GetValidatedAttestations_partial_failure_witness :
    GetValidatedAttestations demoEnv demoAvtMixed "img" =
        (some [{ AttestorName := "att", Image := "img" }], none) ∧
      ∃ out, GetValidatedAttestations demoEnv demoAvtMixed "img" = (some out, none) ∧
        out.length = List.countP (verifies demoEnv demoHost (trustedKeys demoEnv demoAvtMixed))
          [demoAtt SignatureType.PgpSignatureType "FP-k1" "signed-by-FP-k1",
           demoAtt SignatureType.PgpSignatureType "FP-k1" "!",
           demoAtt SignatureType.PgpSignatureType "unknown" "signed-by-unknown"] ∧
        out.length ≤ [demoAtt SignatureType.PgpSignatureType "FP-k1" "signed-by-FP-k1",
           demoAtt SignatureType.PgpSignatureType "FP-k1" "!",
           demoAtt SignatureType.PgpSignatureType "unknown" "signed-by-unknown"].length :=
  ⟨by decide,
    GetValidatedAttestations_partial_failure demoEnv demoAvtMixed "img" demoHost
      (some [demoAtt SignatureType.PgpSignatureType "FP-k1" "signed-by-FP-k1",
        demoAtt SignatureType.PgpSignatureType "FP-k1" "!",
        demoAtt SignatureType.PgpSignatureType "unknown" "signed-by-unknown"])
      ⟨demoPgpKey, by decide, by decide⟩ rfl rfl (by decide)⟩

/-- C2: when the batch the client returns contains a raw attestation whose signature type
is not the PGP type, wherever it stands in the batch and whatever the other attestations
are, the call returns a nil list and an error; when the loop is reached the error is the
unsupported-signature-type error of an attestation of the batch. -/
theorem GetValidatedAttestations_unsupported_signature_type (env : Env)
    (avt : AttestorValidatingTransport) (image : String) (rawAtts : List RawAttestation)
    (err : Option Error) (a : RawAttestation)
    (hclient : avt.Client.Attestations image avt.Attestor = (some rawAtts, err))
    (ha : a ∈ rawAtts) (hbad : a.SignatureType ≠ SignatureType.PgpSignatureType) :
    (GetValidatedAttestations env avt image).1 = none ∧
      (GetValidatedAttestations env avt image).2 ≠ none ∧
      ((∃ pubKey ∈ avt.Attestor.Spec.PublicKeys, ValidatePublicKey env avt pubKey = none) →
        (∃ host, env.NewAtomicContainerSig image = .ok host) → err = none →
        ∃ b ∈ rawAtts, b.SignatureType ≠ SignatureType.PgpSignatureType ∧
          GetValidatedAttestations env avt image =
            (none, some (Error.unsupportedSignatureType b.SignatureType b))) := by
  have hfind : ∃ b, rawAtts.find? (fun a => !isPgp a) = some b := by
    cases h : rawAtts.find? (fun a => !isPgp a) with
    | some b => exact ⟨b, rfl⟩
    | none => exact absurd ((find?_not_isPgp_eq_none_iff rawAtts).1 h a ha) hbad
  obtain ⟨b, hb⟩ := hfind
  have hbmem : b ∈ rawAtts := List.mem_of_find?_eq_some hb
  have hbbad : b.SignatureType ≠ SignatureType.PgpSignatureType := by
    have := List.find?_some hb
    simpa [isPgp] using this
  have hloop : ∀ host keys out tr,
      (verifyLoop env avt image host keys rawAtts out tr).1 =
        (none, some (Error.unsupportedSignatureType b.SignatureType b)) := by
    intro host keys out tr
    rw [verifyLoop_eq, hb]
  refine ⟨?_, ?_, ?_⟩
  · unfold GetValidatedAttestations GetValidatedAttestationsTraced
    by_cases hlen : (trustedKeys env avt).length = 0
    · simp [hlen]
    · cases hh : env.NewAtomicContainerSig image with
      | error e => simp [hlen]
      | ok host => cases err <;> simp [hlen, hclient, hloop]
  · unfold GetValidatedAttestations GetValidatedAttestationsTraced
    by_cases hlen : (trustedKeys env avt).length = 0
    · simp [hlen]
    · cases hh : env.NewAtomicContainerSig image with
      | error e => simp [hlen]
      | ok host => cases err <;> simp [hlen, hclient, hloop]
  · rintro hkey ⟨host, hhost⟩ rfl
    refine ⟨b, hbmem, hbbad, ?_⟩
    unfold GetValidatedAttestations
    rw [GetValidatedAttestationsTraced_eq env avt image host (some rawAtts) hkey hhost hclient]
    exact hloop _ _ _ _

/-- Witness for C2: a verifying attestation followed by one of the generic type. -/
theorem GetValidatedAttestations_unsupported_signature_type_witness :
    GetValidatedAttestations demoEnv demoAvtGeneric "img" =
        (none, some (Error.unsupportedSignatureType SignatureType.GenericSignatureType
          (demoAtt SignatureType.GenericSignatureType "FP-k1" "signed-by-FP-k1"))) ∧
      (GetValidatedAttestations demoEnv demoAvtGeneric "img").1 = none ∧
      (GetValidatedAttestations demoEnv demoAvtGeneric "img").2 ≠ none :=
  ⟨by decide,
    (GetValidatedAttestations_unsupported_signature_type demoEnv demoAvtGeneric "img" _ none
      (demoAtt SignatureType.GenericSignatureType "FP-k1" "signed-by-FP-k1") rfl
      (by decide) (by decide)).1,
    (GetValidatedAttestations_unsupported_signature_type demoEnv demoAvtGeneric "img" _ none
      (demoAtt SignatureType.GenericSignatureType "FP-k1" "signed-by-FP-k1") rfl
      (by decide) (by decide)).2.1⟩

/-- C3: when every configured key fails `ValidatePublicKey` (in particular when there is
no configured key), the call returns a nil list and the error that names the attestor, and
it makes no call to the signature context or to the client; so the result is the same for
every client and every signature-context constructor. -/
theorem GetValidatedAttestations_no_valid_key (env : Env) (avt : AttestorValidatingTransport)
    (image : String)
    (hnone : ∀ pubKey ∈ avt.Attestor.Spec.PublicKeys,
      ValidatePublicKey env avt pubKey ≠ none) :
    GetValidatedAttestations env avt image =
        (none, some (Error.noValidKey avt.Attestor.Name)) ∧
      GetValidatedAttestationsCalls env avt image = [] ∧
      ∀ (client : ReadOnlyClient) (newSig : String → Except Error Host),
        GetValidatedAttestationsTraced { env with NewAtomicContainerSig := newSig }
            { avt with Client := client } image =
          ((none, some (Error.noValidKey avt.Attestor.Name)), []) := by
  have key : ∀ (env' : Env) (avt' : AttestorValidatingTransport),
      avt'.Attestor = avt.Attestor →
      (∀ pubKey, ValidatePublicKey env' avt' pubKey = ValidatePublicKey env avt pubKey) →
      GetValidatedAttestationsTraced env' avt' image =
        ((none, some (Error.noValidKey avt.Attestor.Name)), []) := by
    intro env' avt' hatt hval
    have hlen : (trustedKeys env' avt').length = 0 := by
      rw [trustedKeys_length_eq_zero_iff, hatt]
      intro pubKey hmem
      rw [hval]
      exact hnone pubKey hmem
    unfold GetValidatedAttestationsTraced
    simp [hlen, hatt]
  refine ⟨?_, ?_, ?_⟩
  · unfold GetValidatedAttestations
    rw [key env avt rfl (fun _ => rfl)]
  · unfold GetValidatedAttestationsCalls
    rw [key env avt rfl (fun _ => rfl)]
  · intro client newSig
    exact key _ _ rfl (fun _ => rfl)

/-- Witness for C3: the only configured key does not parse. -/
theorem GetValidatedAttestations_no_valid_key_witness :
    GetValidatedAttestations demoEnv demoAvtNoKey "img" = (none, some (Error.noValidKey "att")) ∧
      GetValidatedAttestationsCalls demoEnv demoAvtNoKey "img" = [] :=
  ⟨(GetValidatedAttestations_no_valid_key demoEnv demoAvtNoKey "img" (by decide)).1,
    (GetValidatedAttestations_no_valid_key demoEnv demoAvtNoKey "img" (by decide)).2.1⟩

/-- C4: the call returns an error exactly when no configured key passes validation, or the
signature context cannot be constructed, or the client call fails, or a fetched raw
attestation has an unsupported signature type; with an error the list is nil, and without
one the list is non-nil. -/
theorem GetValidatedAttestations_error_iff (env : Env) (avt : AttestorValidatingTransport)
    (image : String) :
    ((GetValidatedAttestations env avt image).2 ≠ none ↔
        (∀ pubKey ∈ avt.Attestor.Spec.PublicKeys, ValidatePublicKey env avt pubKey ≠ none) ∨
          (∃ err, env.NewAtomicContainerSig image = .error err) ∨
          (avt.Client.Attestations image avt.Attestor).2 ≠ none ∨
          ∃ a ∈ (avt.Client.Attestations image avt.Attestor).1.getD [],
            a.SignatureType ≠ SignatureType.PgpSignatureType) ∧
      ((GetValidatedAttestations env avt image).2 ≠ none →
        (GetValidatedAttestations env avt image).1 = none) ∧
      ((GetValidatedAttestations env avt image).2 = none →
        ∃ out, (GetValidatedAttestations env avt image).1 = some out) := by
  have hkeys := trustedKeys_length_eq_zero_iff env avt
  unfold GetValidatedAttestations GetValidatedAttestationsTraced
  by_cases hlen : (trustedKeys env avt).length = 0
  · have h := hkeys.1 hlen
    simp only [hlen, if_true]
    exact ⟨by simp; exact Or.inl (by simpa using h), by simp, by simp⟩
  · have h : ¬ ∀ pubKey ∈ avt.Attestor.Spec.PublicKeys,
        ValidatePublicKey env avt pubKey ≠ none := fun h' => hlen (hkeys.2 h')
    simp only [hlen, if_false, h, false_or]
    cases hh : env.NewAtomicContainerSig image with
    | error e => simp
    | ok host =>
      rcases hc : avt.Client.Attestations image avt.Attestor with ⟨rawAtts, err⟩
      cases err with
      | some e => simp
      | none =>
        simp only [verifyLoop_eq]
        cases hf : (rawAtts.getD []).find? (fun a => !isPgp a) with
        | some b =>
          have hbmem : b ∈ rawAtts.getD [] := List.mem_of_find?_eq_some hf
          have hbbad : b.SignatureType ≠ SignatureType.PgpSignatureType := by
            have := List.find?_some hf
            simpa [isPgp] using this
          exact ⟨⟨fun _ => Or.inr (Or.inr ⟨b, hbmem, hbbad⟩), fun _ => by simp⟩,
            fun _ => rfl, fun h => absurd h (by simp)⟩
        | none =>
          have hall := (find?_not_isPgp_eq_none_iff _).1 hf
          refine ⟨⟨fun h => absurd rfl h, fun h => ?_⟩, fun h => absurd rfl h, fun _ => ⟨_, rfl⟩⟩
          rcases h with ⟨e, he⟩ | h | ⟨a, ha, hbad⟩
          · cases he
          · exact absurd rfl h
          · exact absurd (hall a ha) hbad

/-- C5, as stated, fails in two ways. A raw attestation whose key id is not trusted and
whose signature does not decode is skipped before any key is looked up, so no call to
`VerifySignature` is made for it; and one whose signature type is unsupported aborts the
call, even under a signature context that rejects the zero key for every payload. -/
theorem GetValidatedAttestations_unknown_key_id_no_call :
    (¬ ∀ (env : Env) (avt : AttestorValidatingTransport) (image : String) (host : Host)
        (rawAtts : List RawAttestation) (a : RawAttestation),
        (∃ pubKey ∈ avt.Attestor.Spec.PublicKeys, ValidatePublicKey env avt pubKey = none) →
        env.NewAtomicContainerSig image = .ok host →
        avt.Client.Attestations image avt.Attestor = (some rawAtts, none) →
        a ∈ rawAtts →
        (trustedKeys env avt).get? a.Signature.PublicKeyId = none →
        ∃ decodedSig, Event.VerifySignature PublicKey.zero decodedSig ∈
          GetValidatedAttestationsCalls env avt image) ∧
      (¬ ∀ (env : Env) (avt : AttestorValidatingTransport) (image : String) (host : Host)
        (rawAtts : List RawAttestation) (a : RawAttestation),
        (∃ pubKey ∈ avt.Attestor.Spec.PublicKeys, ValidatePublicKey env avt pubKey = none) →
        env.NewAtomicContainerSig image = .ok host →
        avt.Client.Attestations image avt.Attestor = (some rawAtts, none) →
        a ∈ rawAtts →
        (trustedKeys env avt).get? a.Signature.PublicKeyId = none →
        (∀ b ∈ rawAtts, b ≠ a → b.SignatureType = SignatureType.PgpSignatureType) →
        (∀ payload, host.VerifySignature PublicKey.zero payload ≠ none) →
        (GetValidatedAttestations env avt image).2 = none) := by
  constructor
  · intro h
    have h1 := h demoEnv demoAvtUndecodable "img" demoHost _
      (demoAtt SignatureType.PgpSignatureType "unknown" "!")
      ⟨demoPgpKey, by decide, by decide⟩ rfl rfl (by decide) (by decide)
    obtain ⟨d, hd⟩ := h1
    have hcalls : GetValidatedAttestationsCalls demoEnv demoAvtUndecodable "img" =
        [Event.NewAtomicContainerSig "img",
          Event.Attestations "img" demoAvtUndecodable.Attestor] := by decide
    rw [hcalls] at hd
    simp at hd
  · intro h
    have h1 := h demoEnv demoAvtUnknownGeneric "img" demoHost _
      (demoAtt SignatureType.GenericSignatureType "unknown" "signed-by-unknown")
      ⟨demoPgpKey, by decide, by decide⟩ rfl rfl (by decide) (by decide)
      (by intro b hb hne; simp [demoAvtUnknownGeneric] at hb; exact absurd hb hne)
      (by intro payload; simp [demoHost, PublicKey.zero])
    revert h1
    decide

/-- The trusted-key mapping does not depend on the client of the validator. -/
theorem collectKeys_client (env : Env) (avt : AttestorValidatingTransport)
    (client : ReadOnlyClient) (l : List PublicKey) (m : GoMap PublicKey) :
    collectKeys env { avt with Client := client } l m = collectKeys env avt l m := by
  induction l generalizing m with
  | nil => rfl
  | cons pubKey rest ih =>
    unfold collectKeys
    have hv : ValidatePublicKey env { avt with Client := client } pubKey =
        ValidatePublicKey env avt pubKey := rfl
    rw [hv]
    cases ValidatePublicKey env avt pubKey <;> simp [ih]

/-- The calls of `GetValidatedAttestations`, once it has a trusted key, a signature
context and a batch of raw attestations. -/
theorem GetValidatedAttestationsCalls_eq (env : Env) (avt : AttestorValidatingTransport)
    (image : String) (host : Host) (rawAtts : Option (List RawAttestation))
    (hkey : ∃ pubKey ∈ avt.Attestor.Spec.PublicKeys, ValidatePublicKey env avt pubKey = none)
    (hhost : env.NewAtomicContainerSig image = .ok host)
    (hclient : avt.Client.Attestations image avt.Attestor = (rawAtts, none)) :
    GetValidatedAttestationsCalls env avt image =
      [Event.NewAtomicContainerSig image, Event.Attestations image avt.Attestor] ++
        ((rawAtts.getD []).takeWhile isPgp).filterMap (verifyCall env (trustedKeys env avt)) := by
  unfold GetValidatedAttestationsCalls
  rw [GetValidatedAttestationsTraced_eq env avt image host rawAtts hkey hhost hclient,
    verifyLoop_eq]

/-- C5, amended: a raw attestation of the PGP signature type whose declared key id is not
a key of the trusted-key mapping, once the loop reaches it with a signature that decodes,
is verified with the zero-valued key and the decoded signature; and whenever the
signature context rejects the zero-valued key for every payload, such an attestation
contributes no entry and does not abort the call: the call returns what it returns for
the batch without that attestation. -/
theorem GetValidatedAttestations_unknown_key_id (env : Env)
    (avt : AttestorValidatingTransport) (image : String) (host : Host)
    (pre post : List RawAttestation) (a : RawAttestation)
    (hkey : ∃ pubKey ∈ avt.Attestor.Spec.PublicKeys, ValidatePublicKey env avt pubKey = none)
    (hhost : env.NewAtomicContainerSig image = .ok host)
    (hclient : avt.Client.Attestations image avt.Attestor = (some (pre ++ a :: post), none))
    (hunknown : (trustedKeys env avt).get? a.Signature.PublicKeyId = none)
    (hpgp : a.SignatureType = SignatureType.PgpSignatureType) :
    (∀ decodedSig, (∀ b ∈ pre, b.SignatureType = SignatureType.PgpSignatureType) →
        env.DecodeString a.Signature.Signature = .ok decodedSig →
        Event.VerifySignature PublicKey.zero decodedSig ∈
          GetValidatedAttestationsCalls env avt image) ∧
      ((∀ payload, host.VerifySignature PublicKey.zero payload ≠ none) →
        ∀ client : ReadOnlyClient,
          client.Attestations image avt.Attestor = (some (pre ++ post), none) →
          GetValidatedAttestations env avt image =
            GetValidatedAttestations env { avt with Client := client } image) := by
  have hzero : GoMap.index PublicKey.zero (trustedKeys env avt) a.Signature.PublicKeyId =
      PublicKey.zero := by simp [GoMap.index, hunknown]
  have hpa : isPgp a = true := by simp [isPgp, hpgp]
  constructor
  · intro decodedSig hpre hdec
    rw [GetValidatedAttestationsCalls_eq env avt image host _ hkey hhost hclient]
    have hpre' : ∀ b ∈ pre, isPgp b = true := fun b hb => by simp [isPgp, hpre b hb]
    simp only [Option.getD_some, List.takeWhile_append_of_pos hpre', List.takeWhile_cons, hpa,
      if_true, List.filterMap_append, List.filterMap_cons]
    have hcall : verifyCall env (trustedKeys env avt) a =
        some (Event.VerifySignature PublicKey.zero decodedSig) := by
      simp [verifyCall, hdec, hzero]
    simp [hcall]
  · intro hrej client hclient'
    have hva : verifies env host (trustedKeys env avt) a = false := by
      unfold verifies
      cases hd : env.DecodeString a.Signature.Signature with
      | error e => rfl
      | ok d =>
        simp only [hzero]
        cases hv : host.VerifySignature PublicKey.zero d with
        | none => exact absurd hv (hrej d)
        | some e => rfl
    have hkeys : trustedKeys env { avt with Client := client } = trustedKeys env avt :=
      collectKeys_client env avt client _ _
    unfold GetValidatedAttestations
    rw [GetValidatedAttestationsTraced_eq env avt image host _ hkey hhost hclient,
      GetValidatedAttestationsTraced_eq env { avt with Client := client } image host _ hkey
        hhost hclient',
      verifyLoop_eq, verifyLoop_eq, hkeys]
    simp [List.find?_append, List.countP_append, List.countP_cons, hpa, hva]

/-- Witness for C5, amended: between two verifying attestations, one with a key id that is
not trusted. -/
theorem GetValidatedAttestations_unknown_key_id_witness :
    Event.VerifySignature PublicKey.zero "signed-by-unknown" ∈
        GetValidatedAttestationsCalls demoEnv demoAvtUnknown "img" ∧
      GetValidatedAttestations demoEnv demoAvtUnknown "img" =
        (some [{ AttestorName := "att", Image := "img" }, { AttestorName := "att", Image := "img" }],
          none) :=
  ⟨(GetValidatedAttestations_unknown_key_id demoEnv demoAvtUnknown "img" demoHost
      [demoAtt SignatureType.PgpSignatureType "FP-k1" "signed-by-FP-k1"]
      [demoAtt SignatureType.PgpSignatureType "FP-k1" "signed-by-FP-k1"]
      (demoAtt SignatureType.PgpSignatureType "unknown" "signed-by-unknown")
      ⟨demoPgpKey, by decide, by decide⟩ rfl rfl (by decide) (by decide)).1
      "signed-by-unknown" (by decide) rfl,
    by decide⟩

/-- C6: the domain of the trusted-key mapping is exactly the set of key ids of the
configured keys that pass `ValidatePublicKey`, and the key mapped to an id is the last
configured key, in list order, that passes validation and has that id. A key that fails
validation does not abort the call when another key passes: the call goes on to construct
the signature context. Every key handed to `VerifySignature` is the zero key or a
configured key that passed validation and whose key id is the one declared by a fetched
raw attestation. -/
theorem trustedKeys_last_write_wins (env : Env) (avt : AttestorValidatingTransport) :
    (∀ id, (trustedKeys env avt).get? id ≠ none ↔
        ∃ pubKey ∈ avt.Attestor.Spec.PublicKeys,
          ValidatePublicKey env avt pubKey = none ∧ pubKey.KeyId = id) ∧
      (∀ id, (trustedKeys env avt).get? id =
        (avt.Attestor.Spec.PublicKeys.filter (trustedAs env avt id)).getLast?) ∧
      (∀ image,
        (∃ pubKey ∈ avt.Attestor.Spec.PublicKeys, ValidatePublicKey env avt pubKey = none) →
        Event.NewAtomicContainerSig image ∈ GetValidatedAttestationsCalls env avt image) ∧
      (∀ image key decodedSig,
        Event.VerifySignature key decodedSig ∈ GetValidatedAttestationsCalls env avt image →
        key = PublicKey.zero ∨
          (key ∈ avt.Attestor.Spec.PublicKeys ∧ ValidatePublicKey env avt key = none ∧
            ∃ a ∈ (avt.Client.Attestations image avt.Attestor).1.getD [],
              a.Signature.PublicKeyId = key.KeyId ∧
              env.DecodeString a.Signature.Signature = .ok decodedSig)) := by
  have hget : ∀ id, (trustedKeys env avt).get? id =
      (avt.Attestor.Spec.PublicKeys.filter (trustedAs env avt id)).getLast? := by
    intro id
    unfold trustedKeys
    rw [collectKeys_get?]
    simp [GoMap.get?]
  refine ⟨?_, hget, ?_, ?_⟩
  · intro id
    rw [hget, ne_eq, List.getLast?_eq_none_iff, List.filter_eq_nil_iff]
    simp [trustedAs]
  · intro image hkey
    have hlen : ¬ (trustedKeys env avt).length = 0 := by
      rw [trustedKeys_length_eq_zero_iff]
      obtain ⟨k, hk, hv⟩ := hkey
      exact fun h => h k hk hv
    unfold GetValidatedAttestationsCalls GetValidatedAttestationsTraced
    simp only [hlen, if_false]
    cases hh : env.NewAtomicContainerSig image with
    | error e => simp
    | ok host =>
      rcases hc : avt.Client.Attestations image avt.Attestor with ⟨rawAtts, err⟩
      cases err with
      | some e => simp
      | none => simp [verifyLoop_eq]
  · intro image key decodedSig hmem
    unfold GetValidatedAttestationsCalls GetValidatedAttestationsTraced at hmem
    by_cases hlen : (trustedKeys env avt).length = 0
    · simp [hlen] at hmem
    · simp only [hlen, if_false] at hmem
      cases hh : env.NewAtomicContainerSig image with
      | error e => simp [hh] at hmem
      | ok host =>
        rw [hh] at hmem
        rcases hc : avt.Client.Attestations image avt.Attestor with ⟨rawAtts, err⟩
        rw [hc] at hmem
        cases err with
        | some e => simp at hmem
        | none =>
          simp only [verifyLoop_eq, List.mem_append, List.mem_cons, List.mem_singleton,
            reduceCtorEq, List.not_mem_nil, or_false, false_or, List.mem_filterMap] at hmem
          obtain ⟨a, ha, hcall⟩ := hmem
          have ha' : a ∈ rawAtts.getD [] := (List.takeWhile_sublist isPgp).subset ha
          unfold verifyCall at hcall
          cases hd : env.DecodeString a.Signature.Signature with
          | error e => simp [hd] at hcall
          | ok d =>
            simp only [hd, Option.some.injEq, Event.VerifySignature.injEq] at hcall
            obtain ⟨hk, hsig⟩ := hcall
            rcases trustedKeys_index env avt a.Signature.PublicKeyId with hz | ⟨h1, h2, h3⟩
            · left; rw [← hk]; exact hz
            · right
              rw [hk] at h1 h2 h3
              exact ⟨h1, h2, a, ha', h3.symm, by rw [hd, hsig]⟩

/-- C11: with a valid key, when constructing the signature context fails with `e` the call
returns `(nil, e)` and its only collaborator call is the constructor, so the client is not
called; and when the context is constructed and the client call fails with `e` the call
returns `(nil, e)` with that same error value, after exactly one client call and no call
to `VerifySignature`. -/
theorem GetValidatedAttestations_remote_errors (env : Env) (avt : AttestorValidatingTransport)
    (image : String)
    (hkey : ∃ pubKey ∈ avt.Attestor.Spec.PublicKeys, ValidatePublicKey env avt pubKey = none) :
    (∀ e, env.NewAtomicContainerSig image = .error e →
        GetValidatedAttestations env avt image = (none, some e) ∧
          GetValidatedAttestationsCalls env avt image = [Event.NewAtomicContainerSig image]) ∧
      (∀ host rawAtts e, env.NewAtomicContainerSig image = .ok host →
        avt.Client.Attestations image avt.Attestor = (rawAtts, some e) →
        GetValidatedAttestations env avt image = (none, some e) ∧
          GetValidatedAttestationsCalls env avt image =
            [Event.NewAtomicContainerSig image, Event.Attestations image avt.Attestor]) := by
  have hlen : ¬ (trustedKeys env avt).length = 0 := by
    rw [trustedKeys_length_eq_zero_iff]
    obtain ⟨k, hk, hv⟩ := hkey
    exact fun h => h k hk hv
  constructor
  · intro e he
    unfold GetValidatedAttestations GetValidatedAttestationsCalls GetValidatedAttestationsTraced
    simp only [hlen, if_false, he, and_self]
  · intro host rawAtts e hhost hclient
    unfold GetValidatedAttestations GetValidatedAttestationsCalls GetValidatedAttestationsTraced
    simp only [hlen, if_false, hhost, hclient, and_self]

/-- Witness for C11: a constructor that fails, and a client that fails. -/
theorem GetValidatedAttestations_remote_errors_witness :
    (GetValidatedAttestations demoEnvNoHost demoAvtMixed "img" =
          (none, some (Error.external "invalid image")) ∧
        GetValidatedAttestationsCalls demoEnvNoHost demoAvtMixed "img" =
          [Event.NewAtomicContainerSig "img"]) ∧
      (GetValidatedAttestations demoEnv demoAvtClientFails "img" =
          (none, some (Error.external "unavailable")) ∧
        GetValidatedAttestationsCalls demoEnv demoAvtClientFails "img" =
          [Event.NewAtomicContainerSig "img",
            Event.Attestations "img" demoAvtClientFails.Attestor]) :=
  ⟨(GetValidatedAttestations_remote_errors demoEnvNoHost demoAvtMixed "img"
      ⟨demoPgpKey, by decide, by decide⟩).1 _ rfl,
    (GetValidatedAttestations_remote_errors demoEnv demoAvtClientFails "img"
      ⟨demoPgpKey, by decide, by decide⟩).2 demoHost _ _ rfl rfl⟩

/-- C12: when the call returns a nil error, the signature context was constructed and the
returned list is exactly `K` copies of the value with the attestor name and the image,
where `K` counts the fetched raw attestations that decode and verify; so every entry is
that one value and nothing of a raw attestation reaches the output. -/
theorem GetValidatedAttestations_content (env : Env) (avt : AttestorValidatingTransport)
    (image : String) (hok : (GetValidatedAttestations env avt image).2 = none) :
    ∃ host, env.NewAtomicContainerSig image = .ok host ∧
      (GetValidatedAttestations env avt image).1 =
        some (List.replicate
          (((avt.Client.Attestations image avt.Attestor).1.getD []).countP
            (verifies env host (trustedKeys env avt)))
          { AttestorName := avt.Attestor.Name, Image := image }) ∧
      ∀ out, (GetValidatedAttestations env avt image).1 = some out →
        ∀ v ∈ out, v = { AttestorName := avt.Attestor.Name, Image := image } := by
  unfold GetValidatedAttestations GetValidatedAttestationsTraced at hok ⊢
  by_cases hlen : (trustedKeys env avt).length = 0
  · simp [hlen] at hok
  · simp only [hlen, if_false] at hok ⊢
    cases hh : env.NewAtomicContainerSig image with
    | error e => simp [hh] at hok
    | ok host =>
      rw [hh] at hok
      rcases hc : avt.Client.Attestations image avt.Attestor with ⟨rawAtts, err⟩
      rw [hc] at hok
      cases err with
      | some e => simp at hok
      | none =>
        simp only [verifyLoop_eq] at hok ⊢
        cases hf : (rawAtts.getD []).find? (fun a => !isPgp a) with
        | some b => simp [hf] at hok
        | none =>
          refine ⟨host, rfl, by simp, ?_⟩
          intro out hout v hv
          simp only [List.nil_append, Option.some.injEq] at hout
          subst hout
          exact List.eq_of_mem_replicate hv

/-- Witness for C12: of three PGP attestations one verifies, and the output is one copy. -/
theorem GetValidatedAttestations_content_witness :
    (GetValidatedAttestations demoEnv demoAvtMixed "img").2 = none ∧
      ∃ host, demoEnv.NewAtomicContainerSig "img" = .ok host ∧
        (GetValidatedAttestations demoEnv demoAvtMixed "img").1 =
          some (List.replicate
            (((demoAvtMixed.Client.Attestations "img" demoAvtMixed.Attestor).1.getD []).countP
              (verifies demoEnv host (trustedKeys demoEnv demoAvtMixed)))
            { AttestorName := demoAvtMixed.Attestor.Name, Image := "img" }) ∧
        ∀ out, (GetValidatedAttestations demoEnv demoAvtMixed "img").1 = some out →
          ∀ v ∈ out, v = { AttestorName := demoAvtMixed.Attestor.Name, Image := "img" } :=
  ⟨by decide, GetValidatedAttestations_content demoEnv demoAvtMixed "img" (by decide)⟩

/-- C18: a key whose type is neither PGP nor PKIX is rejected by stage 1 with the
unsupported-key-type error, and `ValidatePublicKey` returns that error whatever the
material, the key id and the parsers are; and on a key that stage 1 accepts,
`validatePublicKeyId` does not return the unsupported-key-type error of its default
branch, since the type of such a key is PGP or PKIX. -/
theorem ValidatePublicKey_unsupported_key_type (pubKey : PublicKey) :
    (pubKey.KeyType ≠ PgpKeyType ∧ pubKey.KeyType ≠ PkixKeyType →
        validatePublicKeyType pubKey =
            some (Error.unsupportedKeyType pubKey.KeyType pubKey) ∧
          ∀ (env : Env) (avt : AttestorValidatingTransport),
            ValidatePublicKey env avt pubKey =
              some (Error.unsupportedKeyType pubKey.KeyType pubKey)) ∧
      (validatePublicKeyType pubKey = none →
        (pubKey.KeyType = PgpKeyType ∨ pubKey.KeyType = PkixKeyType) ∧
          ∀ (env : Env) (avt : AttestorValidatingTransport),
            validatePublicKeyId env avt pubKey ≠
              some (Error.unsupportedKeyType pubKey.KeyType pubKey)) ∧
      ValidatePublicKey demoEnv (demoAvt "a" [] []) demoRsaKey =
        some (Error.unsupportedKeyType "RSA" demoRsaKey) := by
  refine ⟨?_, ?_, by decide⟩
  · rintro ⟨h1, h2⟩
    have hs : validatePublicKeyType pubKey =
        some (Error.unsupportedKeyType pubKey.KeyType pubKey) := by
      simp [validatePublicKeyType, h1, h2]
    refine ⟨hs, fun env avt => ?_⟩
    simp [ValidatePublicKey, hs]
  · intro h
    have ht : pubKey.KeyType = PgpKeyType ∨ pubKey.KeyType = PkixKeyType := by
      rcases (validatePublicKeyType_eq_none_iff pubKey).1 h with ⟨h1, _⟩ | ⟨h1, _⟩
      · exact Or.inl h1
      · exact Or.inr h1
    refine ⟨ht, fun env avt => ?_⟩
    unfold validatePublicKeyId
    by_cases h1 : pubKey.KeyType = PgpKeyType
    · simp only [h1, if_true]
      cases env.KeyAndFingerprint pubKey.PgpPublicKey with
      | error err => simp
      | ok keyId => by_cases hk : keyId = pubKey.KeyId <;> simp [hk]
    · have h2 : pubKey.KeyType = PkixKeyType := ht.resolve_left h1
      have hne : ¬ PkixKeyType = PgpKeyType := fun e => PgpKeyType_ne_PkixKeyType e.symm
      simp only [h2, hne, if_false, if_true]
      cases env.urlParse pubKey.KeyId <;> simp

/-! ## Theorems: the metadata cache -/

theorem GoMap.get?_eq_none_iff {V : Type} (m : GoMap V) (k : String) :
    m.get? k = none ↔ ∀ e ∈ m, e.1 ≠ k := by
  simp [GoMap.get?, List.find?_eq_none]

theorem PtrMap.get?_eq_none_iff_addr {V : Type} (m : PtrMap V) (aa : AuthorityPtr) :
    m.get? aa = none ↔ ∀ e ∈ m, e.1 ≠ aa.addr := by
  simp [PtrMap.get?, List.find?_eq_none]

/-- The two cases of `TestVCache` give the results the test expects. -/
theorem TestVCache_expected :
    (vCacheFixture.Vulnerabilities "image-hit").1 = (some [vulnCVE "CVE-1"], none) ∧
      (vCacheFixture.Vulnerabilities "image-miss").1 = (some [vulnCVE "CVE-misss"], none) := by
  decide

/-- The two cases of `TestACache` give the results the test expects. -/
theorem TestACache_expected (addr : Nat) :
    (aCacheFixture.Attestations "image-hit" (aCacheAuthority addr)).1 =
        (some [makeRawAttestationPgp "" "" "occc-1"], none) ∧
      (aCacheFixture.Attestations "image-miss" (aCacheAuthority addr)).1 =
        (some [makeRawAttestationPgp "" "" "occc-miss"], none) :=
  ⟨rfl, rfl⟩

/-- The two cases of `TestNCache` give the results the test expects. -/
theorem TestNCache_expected :
    (nCacheFixture.AttestationNote (aaHit 1)).1 = (some { Name := "from-cache" }, none) ∧
      (nCacheFixture.AttestationNote (aaMiss 2)).1 = (some { Name := "from-client" }, none) := by
  decide

/-- C13: when `image` is a key of the vulnerability map, `Cache.Vulnerabilities` returns
the stored slice with a nil error and makes no call to the wrapped client, so the result
is the same for every client; and likewise `Cache.Attestations`, for every authority,
when `image` is a key of the attestation map. -/
theorem Cache_hit (c : Cache) (image : String) :
    (∀ v, (c.vuln.getD []).get? image = some v →
        ∀ client : ReadWriteClient,
          Cache.Vulnerabilities { c with client := client } image = ((v, none), [])) ∧
      (∀ a, (c.att.getD []).get? image = some a →
        ∀ (client : ReadWriteClient) (aa : AuthorityPtr),
          Cache.Attestations { c with client := client } image aa = ((a, none), [])) := by
  constructor
  · intro v hv client
    simp [Cache.Vulnerabilities, hv]
  · intro a ha client aa
    simp [Cache.Attestations, ha]

/-- Witness for C13: the hits of `TestVCache` and `TestACache`, over a client that fails. -/
theorem Cache_hit_witness :
    Cache.Vulnerabilities { vCacheFixture with client := failingClient } "image-hit" =
        ((some [vulnCVE "CVE-1"], none), []) ∧
      Cache.Attestations { aCacheFixture with client := failingClient } "image-hit"
          (aCacheAuthority 7) =
        ((some [makeRawAttestationPgp "" "" "occc-1"], none), []) :=
  ⟨(Cache_hit vCacheFixture "image-hit").1 _ rfl failingClient,
    (Cache_hit aCacheFixture "image-hit").2 _ rfl failingClient (aCacheAuthority 7)⟩

/-- C14: when no entry of the vulnerability map has the key `image`, in particular when
the map is nil, `Cache.Vulnerabilities` returns the pair that the `Vulnerabilities` of
the wrapped client returns for `image`, after that one call; and likewise
`Cache.Attestations` with the attestation map and the `Attestations` of the client. -/
theorem Cache_miss (c : Cache) (image : String) :
    ((∀ e ∈ c.vuln.getD [], e.1 ≠ image) →
        c.Vulnerabilities image =
          (c.client.Vulnerabilities image, [ClientCall.Vulnerabilities image])) ∧
      ((∀ e ∈ c.att.getD [], e.1 ≠ image) →
        ∀ aa, c.Attestations image aa =
          (c.client.Attestations image aa, [ClientCall.Attestations image aa])) ∧
      (c.vuln = none →
        c.Vulnerabilities image =
          (c.client.Vulnerabilities image, [ClientCall.Vulnerabilities image])) ∧
      (c.att = none →
        ∀ aa, c.Attestations image aa =
          (c.client.Attestations image aa, [ClientCall.Attestations image aa])) := by
  have hv : (∀ e ∈ c.vuln.getD [], e.1 ≠ image) →
      c.Vulnerabilities image =
        (c.client.Vulnerabilities image, [ClientCall.Vulnerabilities image]) := by
    intro h
    simp [Cache.Vulnerabilities, (GoMap.get?_eq_none_iff _ _).2 h]
  have ha : (∀ e ∈ c.att.getD [], e.1 ≠ image) →
      ∀ aa, c.Attestations image aa =
        (c.client.Attestations image aa, [ClientCall.Attestations image aa]) := by
    intro h aa
    simp [Cache.Attestations, (GoMap.get?_eq_none_iff _ _).2 h]
  refine ⟨hv, ha, fun h => hv ?_, fun h => ha ?_⟩
  · simp [h]
  · simp [h]

/-- Witness for C14: the miss of `TestVCache`, and a miss on a nil map over a client that
fails. -/
theorem Cache_miss_witness :
    vCacheFixture.Vulnerabilities "image-miss" =
        ((some [vulnCVE "CVE-misss"], none), [ClientCall.Vulnerabilities "image-miss"]) ∧
      Cache.Attestations { vCacheFixture with client := failingClient } "image-miss"
          (aCacheAuthority 7) =
        ((none, some (Error.external "unavailable")),
          [ClientCall.Attestations "image-miss" (aCacheAuthority 7)]) :=
  ⟨(Cache_miss vCacheFixture "image-miss").1 (by decide),
    (Cache_miss { vCacheFixture with client := failingClient } "image-miss").2.2.2 rfl
      (aCacheAuthority 7)⟩

/-- C15: when `image` is a key of the attestation map, `Cache.Attestations` returns the
stored slice for any two authorities, whatever their names, keys and note references. -/
theorem Cache_attestations_keyed_by_image (c : Cache) (image : String)
    (a : Option (List RawAttestation)) (aa₁ aa₂ : AuthorityPtr)
    (ha : (c.att.getD []).get? image = some a) :
    c.Attestations image aa₁ = c.Attestations image aa₂ ∧
      (c.Attestations image aa₁).1 = (a, none) ∧ (c.Attestations image aa₂).1 = (a, none) := by
  simp [Cache.Attestations, ha]

/-- Witness for C15: the hit of `TestACache`, asked for by two different authorities. -/
theorem Cache_attestations_keyed_by_image_witness :
    aCacheFixture.Attestations "image-hit" (aaHit 1) =
        aCacheFixture.Attestations "image-hit" (aaMiss 2) ∧
      (aCacheFixture.Attestations "image-hit" (aaHit 1)).1 =
        (some [makeRawAttestationPgp "" "" "occc-1"], none) ∧
      (aCacheFixture.Attestations "image-hit" (aaMiss 2)).1 =
        (some [makeRawAttestationPgp "" "" "occc-1"], none) :=
  Cache_attestations_keyed_by_image aCacheFixture "image-hit" _ (aaHit 1) (aaMiss 2) rfl

/-- C17: `Cache.AttestationNote` returns the stored note with a nil error, without a call
to the client, when the authority instance is a key of the notes map; and for an instance
that is not a stored key it returns what the `AttestationNote` of the wrapped client
returns for it, also when its field values equal those of a stored key: in the cache of
`TestNCache` a second instance with the values of `aaHit` misses. -/
theorem Cache_note_identity (c : Cache) (aa : AuthorityPtr) :
    (∀ n, (c.notes.getD []).get? aa = some n → c.AttestationNote aa = ((n, none), [])) ∧
      ((∀ e ∈ c.notes.getD [], e.1 ≠ aa.addr) →
        c.AttestationNote aa =
          (c.client.AttestationNote aa, [ClientCall.AttestationNote aa])) ∧
      ((aaHit 2).target = (aaHit 1).target ∧
        nCacheFixture.AttestationNote (aaHit 1) = ((some { Name := "from-cache" }, none), []) ∧
        nCacheFixture.AttestationNote (aaHit 2) =
          (nCacheFixture.client.AttestationNote (aaHit 2),
            [ClientCall.AttestationNote (aaHit 2)])) := by
  refine ⟨?_, ?_, rfl, by decide, by decide⟩
  · intro n hn
    simp [Cache.AttestationNote, hn]
  · intro h
    simp [Cache.AttestationNote, (PtrMap.get?_eq_none_iff_addr _ _).2 h]

/-- Witness for C17: the two cases of `TestNCache`. -/
theorem Cache_note_identity_witness :
    nCacheFixture.AttestationNote (aaHit 1) = ((some { Name := "from-cache" }, none), []) ∧
      nCacheFixture.AttestationNote (aaMiss 2) =
        ((some { Name := "from-client" }, none), [ClientCall.AttestationNote (aaMiss 2)]) :=
  ⟨(Cache_note_identity nCacheFixture (aaHit 1)).1 _ rfl,
    (Cache_note_identity nCacheFixture (aaMiss 2)).2.1 (by decide)⟩

/-! ## Theorems: the round trip of `ParseNoteReference` -/

/-- No piece of a split holds an element the split was made on. -/
theorem not_of_mem_splitOnP {α : Type} (p : α → Bool) (xs : List α) :
    ∀ l ∈ xs.splitOnP p, ∀ y ∈ l, ¬ p y = true := by
  induction xs with
  | nil => simp
  | cons x xs ih =>
    rw [List.splitOnP_cons]
    by_cases hx : p x = true
    · simp only [hx, if_true]
      intro l hl
      rcases List.mem_cons.1 hl with rfl | hl
      · simp
      · exact ih l hl
    · simp only [hx, if_false]
      cases hs : List.splitOnP p xs with
      | nil => simp [List.modifyHead]
      | cons hd tl =>
        rw [hs] at ih
        intro l hl y hy
        have hl' : l = x :: hd ∨ l ∈ tl := by simpa [List.modifyHead] using hl
        rcases hl' with rfl | hl'
        · rcases List.mem_cons.1 hy with rfl | hy'
          · exact hx
          · exact ih hd (by simp) y hy'
        · exact ih l (by simp [hl']) y hy

/-- No segment of `strings.Split(s, "/")` contains a `/`. -/
theorem splitSlash_no_slash (s seg : String) (h : seg ∈ splitSlash s) : '/' ∉ seg.toList := by
  unfold splitSlash at h
  obtain ⟨l, hl, rfl⟩ := List.mem_map.1 h
  intro hc
  have := not_of_mem_splitOnP (· == '/') s.toList l hl '/' hc
  simp at this

/-- Joining the segments of `strings.Split(s, "/")` with `/` gives `s` back. -/
theorem splitSlash_four (s a b c d : String) (h : splitSlash s = [a, b, c, d]) :
    s = a ++ "/" ++ b ++ "/" ++ c ++ "/" ++ d := by
  unfold splitSlash at h
  have hs : s.toList.splitOn '/' = [a.toList, b.toList, c.toList, d.toList] := by
    have h2 := congrArg (List.map String.toList) h
    simpa [List.map_map, Function.comp_def, String.toList] using h2
  have hj := List.intercalate_splitOn s.toList '/'
  rw [hs] at hj
  apply String.ext
  simp only [String.data_append]
  simpa [List.intercalate, String.toList] using hj.symm

/-- Splitting a join of four segments without `/` gives the four segments back. -/
theorem splitSlash_join (a b c d : String) (ha : '/' ∉ a.toList) (hb : '/' ∉ b.toList)
    (hc : '/' ∉ c.toList) (hd : '/' ∉ d.toList) :
    splitSlash (a ++ "/" ++ b ++ "/" ++ c ++ "/" ++ d) = [a, b, c, d] := by
  unfold splitSlash
  have hj : (a ++ "/" ++ b ++ "/" ++ c ++ "/" ++ d).toList =
      ['/'].intercalate [a.toList, b.toList, c.toList, d.toList] := by
    simp [List.intercalate, String.toList, String.data_append]
  rw [hj, List.splitOn_intercalate _ '/' (by simpa using ⟨ha, hb, hc, hd⟩) (by simp)]
  rfl

/-- The success of `ParseNoteReference`, in terms of the segments. -/
theorem ParseNoteReference_eq_ok_iff (ref p n : String) :
    ParseNoteReference ref = (p, n, none) ↔ splitSlash ref = ["projects", p, "notes", n] := by
  unfold ParseNoteReference
  generalize splitSlash ref = parts
  rcases parts with _ | ⟨a, _ | ⟨b, _ | ⟨c, _ | ⟨d, _ | ⟨e, r⟩⟩⟩⟩⟩ <;> simp [part]
  by_cases ha : a = "projects" <;> by_cases hc : c = "notes" <;> simp [ha, hc]

/-- C19: if `ParseNoteReference ref` returns `(p, n, nil)` then `ref` is
`"projects/" + p + "/notes/" + n` and neither `p` nor `n` contains a `/`; conversely, for
`p` and `n` without a `/`, also empty, that reference parses to `(p, n, nil)`. So
`projects//notes/` parses to two empty strings with a nil error, the pair of strings an
error result carries. -/
theorem ParseNoteReference_round_trip :
    (∀ ref p n, ParseNoteReference ref = (p, n, none) →
        ref = "projects/" ++ p ++ "/notes/" ++ n ∧ '/' ∉ p.toList ∧ '/' ∉ n.toList) ∧
      (∀ p n : String, '/' ∉ p.toList → '/' ∉ n.toList →
        ParseNoteReference ("projects/" ++ p ++ "/notes/" ++ n) = (p, n, none)) ∧
      ParseNoteReference "projects//notes/" = ("", "", none) ∧
      (ParseNoteReference "").1 = "" ∧ (ParseNoteReference "").2.1 = "" ∧
      (ParseNoteReference "").2.2 = some Error.invalidNoteReference := by
  have hform : ∀ p n : String,
      "projects/" ++ p ++ "/notes/" ++ n = "projects" ++ "/" ++ p ++ "/" ++ "notes" ++ "/" ++ n := by
    intro p n
    apply String.ext
    simp [String.data_append]
  refine ⟨?_, ?_, by decide, by decide, by decide, by decide⟩
  · intro ref p n h
    have hs := (ParseNoteReference_eq_ok_iff ref p n).1 h
    refine ⟨?_, ?_, ?_⟩
    · rw [hform]
      exact splitSlash_four ref _ _ _ _ hs
    · exact splitSlash_no_slash ref p (by simp [hs])
    · exact splitSlash_no_slash ref n (by simp [hs])
  · intro p n hp hn
    rw [ParseNoteReference_eq_ok_iff, hform]
    exact splitSlash_join _ _ _ _ (by decide) hp (by decide) hn

end Kritis
